import Mathlib

/-!
Verification of the forecast-and-assemble pipeline implemented in
`Backend/api/common/controller/TriageController.py`.

The Python code is shallowly embedded below.  Python `datetime` values are
modelled as proleptic-Gregorian `(year, month, day)` triples with explicit
day arithmetic (`nextDay`, `addDays`, `toOrdinal` mirror `datetime`'s
behaviour on valid dates); numpy index assignment is modelled by `np_set`,
which fails (`none`) exactly when the index is out of range, the way numpy
raises `IndexError`; Python exceptions are modelled with `Option`/`Except`.
External collaborators (the database, the keras model loader, the
simulation engine `gen_min_interval_slots`) are uninterpreted functions
collected in an `Env` record, and the opaque predictive model is a function
from a trailing window and a calendar-feature vector to its output row
(`model.predict` returns a singleton batch; the embedded model yields the
row `prediction[0]` directly).  Model outputs are rationals, and Python's
`int()` truncation toward zero is `truncQ`.
-/

namespace TriageModel

/-- A calendar date as carried by Python `datetime` values; only the
year, month and day components are used by the controller. -/
structure Date where
  year : ℕ
  month : ℕ
  day : ℕ
deriving DecidableEq

/-- Gregorian leap-year rule, as implemented by Python's `datetime`. -/
def isLeap (y : ℕ) : Prop := (y % 4 = 0 ∧ y % 100 ≠ 0) ∨ y % 400 = 0

instance (y : ℕ) : Decidable (isLeap y) := by
  unfold isLeap
  infer_instance

/-- Number of days in a month of a given year (Gregorian calendar). -/
def daysInMonth (y m : ℕ) : ℕ :=
  if m = 2 then (if isLeap y then 29 else 28)
  else if m = 4 ∨ m = 6 ∨ m = 9 ∨ m = 11 then 30
  else 31

/-- The dates representable by Python's `datetime` (year at least 1,
month in 1..12, day in range for the month). -/
def ValidDate (d : Date) : Prop :=
  1 ≤ d.year ∧ 1 ≤ d.month ∧ d.month ≤ 12 ∧ 1 ≤ d.day ∧ d.day ≤ daysInMonth d.year d.month

instance (d : Date) : Decidable (ValidDate d) := by
  unfold ValidDate
  infer_instance

/-- The calendar day after `d` (Gregorian successor). -/
def nextDay (d : Date) : Date :=
  if d.day < daysInMonth d.year d.month then ⟨d.year, d.month, d.day + 1⟩
  else if d.month < 12 then ⟨d.year, d.month + 1, 1⟩
  else ⟨d.year + 1, 1, 1⟩

/-- The calendar day before `d` (Gregorian predecessor). -/
def prevDay (d : Date) : Date :=
  if 1 < d.day then ⟨d.year, d.month, d.day - 1⟩
  else if 1 < d.month then ⟨d.year, d.month - 1, daysInMonth d.year (d.month - 1)⟩
  else ⟨d.year - 1, 12, 31⟩

/-- `d + timedelta(days = n)` for a Python date `d`. -/
def addDays (d : Date) : ℕ → Date
  | 0 => d
  | n + 1 => addDays (nextDay d) n

/-- `d - timedelta(days = n)` for a Python date `d`. -/
def subDays (d : Date) : ℕ → Date
  | 0 => d
  | n + 1 => subDays (prevDay d) n

/-- Days contained in the years strictly before year `y`
(the standard proleptic-Gregorian count used by `datetime.toordinal`). -/
def daysBeforeYear (y : ℕ) : ℕ :=
  365 * (y - 1) + (y - 1) / 4 - (y - 1) / 100 + (y - 1) / 400

/-- Days contained in the months of year `y` strictly before month `m`. -/
def daysBeforeMonth (y m : ℕ) : ℕ :=
  ((List.range (m - 1)).map (fun k => daysInMonth y (k + 1))).sum

/-- `datetime.toordinal`: the index of the day in the proleptic Gregorian
calendar, with day 1 = January 1 of year 1.  Differences of ordinals are
exactly Python's `(a - b).days`. -/
def toOrdinal (d : Date) : ℕ :=
  daysBeforeYear d.year + daysBeforeMonth d.year d.month + d.day

/-- `date.replace(year = y)`: Python raises `ValueError` when the day does
not exist in the target month/year (Feb 29 in a non-leap year) or the year
is out of range; modelled by `none`. -/
def replaceYear (d : Date) (y : ℕ) : Option Date :=
  if 1 ≤ y ∧ d.day ≤ daysInMonth y d.month then some ⟨y, d.month, d.day⟩ else none

/-- Python truncation toward zero, `int(q)`, on an exact rational. -/
def truncQ (q : ℚ) : ℤ := if 0 ≤ q then ⌊q⌋ else ⌈q⌉

/-- numpy index assignment `v[i] = x` on a 1-d float array: fails with
`IndexError` (here `none`) when the index is out of range. -/
def np_set (v : List ℚ) (i : ℕ) (x : ℚ) : Option (List ℚ) :=
  if i < v.length then some (v.set i x) else none

/-- Lines 184-186 of `TriageController.py`:
`one_hot_date = np.zeros(12 + 31); one_hot_date[date.month] = 1;
one_hot_date[12 + date.day] = 1`. -/
def one_hot_date (d : Date) : Option (List ℚ) :=
  match np_set (List.replicate (12 + 31) 0) d.month 1 with
  | none => none
  | some v => np_set v (12 + d.day) 1

/-- The opaque predictive model: maps a trailing window and a calendar
feature vector to its (single-sample) output row `prediction[0]`. -/
abbrev Model := List ℤ → List ℚ → List ℚ

/-- The loop body of `get_predictions` (lines 181-192): for each offset it
builds the calendar feature (which can raise `IndexError`), queries the
model, records the output row `prediction[0]`, and slides the window by
`data = data[1:] + [int(prediction[0][0])]` (reading `prediction[0][0]`
raises `IndexError` on an empty row). -/
def gp_loop (model : Model) : ℕ → List ℤ → Date → Option (List (List ℚ))
  | 0, _, _ => some []
  | n + 1, data, date =>
    match one_hot_date date with
    | none => none
    | some oh =>
      let row := model data oh
      match row.head? with
      | none => none
      | some c =>
        match gp_loop model n (data.tail ++ [truncQ c]) (nextDay date) with
        | none => none
        | some rest => some (row :: rest)

/-- `TriageController.get_predictions` (lines 178-192). -/
def get_predictions (model : Model) (data : List ℤ) (start_date : Date)
    (prediction_length : ℕ) : Option (List (List ℚ)) :=
  gp_loop model prediction_length data start_date

/-- The trailing window at the start of loop iteration `i` of
`get_predictions`, reconstructed from the seed window and the recorded
prediction rows: drop the oldest entry, append the truncated first channel
of the previous step's prediction. -/
def windowAt (data : List ℤ) (ps : List (List ℚ)) : ℕ → List ℤ
  | 0 => data
  | i + 1 => (windowAt data ps i).tail ++ [truncQ ((ps.getD i []).headI)]

/-- `TriageController.sort_referral_data` (lines 143-155): build the
day-by-day count series over `interval_length` days starting at
`start_date`.  Events are identified by their `%Y-%m-%d` string, which is
in bijection with the date itself, so events are embedded as dates. -/
def sort_referral_data (referral_data : List Date) (start_date : Date)
    (interval_length : ℕ) : List ℕ :=
  let date_list := (List.range interval_length).map (fun offset => addDays start_date offset)
  date_list.map (fun date => referral_data.count date)

/-- `TriageController.ML_PADDING_LENGTH` (line 45). -/
def ML_PADDING_LENGTH : ℕ := 30

/-- `TriageController.SIM_PADDING_LENGTH` (line 46). -/
def SIM_PADDING_LENGTH : ℕ := 7

/-- A triage class record from `clinic_settings` with the fields the
controller reads: `name`, `severity`, `duration`, `proportion`. -/
structure TriageClass where
  name : String
  severity : ℕ
  duration : ℕ
  proportion : ℚ
deriving DecidableEq

/-- The `DataFrame` object constructed at line 102: it carries the
intervals, the assembled series and the boundary tag. -/
structure DataFrame where
  intervals : List (Date × Date)
  data : List (List ℚ)
  boundary : ℕ × ℕ

/-- Lines 100-102 of `predict`: the padding segment
`[[arrivals, 0] for arrivals in sorted_referral_data[-SIM_PADDING_LENGTH:]]`,
followed by the prediction rows, followed by the sentinel `[0, 0]`, tagged
with boundary `(SIM_PADDING_LENGTH, 0)`.  Python's `l[-k:]` for `k = 7` is
`l.drop (l.length - 7)`. -/
def make_data_frame (intervals : List (Date × Date)) (sorted_referral_data : List ℕ)
    (predictions : List (List ℚ)) : DataFrame :=
  let padding := (sorted_referral_data.drop (sorted_referral_data.length - SIM_PADDING_LENGTH)).map
    (fun (arrivals : ℕ) => [(arrivals : ℚ), 0])
  ⟨intervals, padding ++ predictions ++ [[0, 0]], (SIM_PADDING_LENGTH, 0)⟩

/-- The errors `predict` and its helpers can raise. -/
inductive Err where
  | indexOutOfRange : Err
  | missingYear : Err
  | invalidDate : Err
  | missingModel : ℕ → String → Err
deriving DecidableEq

/-- A result of the external simulation engine; only `expected_slots`
is read by the controller. -/
structure SimulationResults where
  expected_slots : ℤ
deriving DecidableEq

/-- The argument record of the external `gen_min_interval_slots` call
(lines 105-114); the fresh empty queue is omitted since it is constant. -/
structure SimArgs where
  data_frame : DataFrame
  window : ℕ
  min_ratio : ℚ
  final_window : ℕ
  confidence : ℚ
  start : ℕ
  endIdx : ℤ
  num_sim_runs : ℕ

/-- One formatted simulation result (lines 115-118). -/
structure SimFormatted where
  slots : ℤ
  start_date : Date
  end_date : Date
deriving DecidableEq

/-- The external collaborators of the controller, as uninterpreted
functions: clinic settings and referral dates from `ClinicData`, the model
registry rows (the `file_path` column) and historic-year rows returned by
`db.select`, the keras loader, and the simulation engine. -/
structure Env where
  clinicSettings : ℕ → List TriageClass
  referralRows : ℕ → Date × Date → List Date
  modelRows : ℕ → ℕ → List String
  loadModel : String → Model
  yearRows : ℕ → ℕ → List ℕ
  sim : SimArgs → List SimulationResults

/-- `TriageController.get_model` (lines 157-176): query the registry by
(clinic id, severity, in_use = True); raise if there are zero rows,
otherwise load the model at the first row's path. -/
def get_model (env : Env) (clinic_id : ℕ) (tc : TriageClass) : Except Err Model :=
  let rows := env.modelRows clinic_id tc.severity
  if rows.length = 0 then
    Except.error (Err.missingModel clinic_id tc.name)
  else
    Except.ok (env.loadModel rows.headI)

/-- `TriageController.get_historic_data_year` (lines 124-141): query by
(month, day) of the start date; raise unless exactly one row came back,
else return that row's year. -/
def get_historic_data_year (env : Env) (start : Date) : Except Err ℕ :=
  let rows := env.yearRows start.month start.day
  if rows.length ≠ 1 then Except.error Err.missingYear
  else Except.ok rows.headI

/-- The per-triage-class loop body of `predict` (lines 86-121): fetch the
referral data, build the daily series, look the model up, run the forecast
(`sorted[-ML_PADDING_LENGTH:]` is the seed window), assemble the data
frame, run the simulation, zip its results with the intervals, and record
them under the class name. -/
def run_triage_classes (env : Env) (clinic_id : ℕ) (intervals : List (Date × Date))
    (confidence : ℚ) (num_sim_runs : ℕ) (histInterval : Date × Date)
    (histLen : ℕ) (predStart : Date) (predLen : ℕ) :
    List TriageClass → List (String × List SimFormatted) →
    Except Err (List (String × List SimFormatted))
  | [], response => Except.ok response
  | tc :: rest, response =>
    let historic := env.referralRows tc.severity histInterval
    let sorted := sort_referral_data historic histInterval.1 histLen
    match get_model env clinic_id tc with
    | Except.error e => Except.error e
    | Except.ok model =>
      match get_predictions model
          ((sorted.drop (sorted.length - ML_PADDING_LENGTH)).map (fun n => (n : ℤ)))
          predStart predLen with
      | none => Except.error Err.indexOutOfRange
      | some preds =>
        let frame := make_data_frame intervals sorted preds
        let simResults := env.sim
          ⟨frame, tc.duration * 7, tc.proportion, tc.duration * 14, confidence, 0,
            (intervals.length : ℤ) - 1, num_sim_runs⟩
        let formatted := (simResults.zip intervals).map
          (fun pr => ⟨pr.1.expected_slots, pr.2.1, pr.2.2⟩)
        run_triage_classes env clinic_id intervals confidence num_sim_runs histInterval
          histLen predStart predLen rest (response ++ [(tc.name, formatted)])

/-- `TriageController.predict` (lines 58-122).  Reading `intervals[0]` of
an empty list raises `IndexError`; the prediction length is
`(end - start).days + 1` (`range` of a non-positive length is empty, hence
`Int.toNat`); the historic window end is the start date with its year
replaced by the resolved historic year, and the historic window is the
`max(ML_PADDING_LENGTH, SIM_PADDING_LENGTH)` days before it. -/
def predict (env : Env) (clinic_id : ℕ) (intervals : List (Date × Date))
    (confidence : ℚ) (num_sim_runs : ℕ) :
    Except Err (List (String × List SimFormatted)) :=
  match intervals.head?, intervals.getLast? with
  | some first, some lastI =>
    let predStart := first.1
    let predEnd := lastI.2
    let predLen : ℤ := ((toOrdinal predEnd : ℤ) - (toOrdinal predStart : ℤ)) + 1
    let histLen := max ML_PADDING_LENGTH SIM_PADDING_LENGTH
    match get_historic_data_year env predStart with
    | Except.error e => Except.error e
    | Except.ok year =>
      match replaceYear predStart year with
      | none => Except.error Err.invalidDate
      | some histEnd =>
        let histInterval := (subDays histEnd histLen, histEnd)
        run_triage_classes env clinic_id intervals confidence num_sim_runs histInterval
          histLen predStart predLen.toNat (env.clinicSettings clinic_id) []
  | _, _ => Except.error Err.indexOutOfRange

/-! ### Calendar arithmetic lemmas -/

lemma one_le_daysInMonth (y m : ℕ) : 1 ≤ daysInMonth y m := by
  unfold daysInMonth
  split_ifs <;> omega

lemma daysInMonth_le_31 (y m : ℕ) : daysInMonth y m ≤ 31 := by
  unfold daysInMonth
  split_ifs <;> omega

lemma validDate_nextDay {d : Date} (hd : ValidDate d) : ValidDate (nextDay d) := by
  obtain ⟨h1, h2, h3, h4, h5⟩ := hd
  unfold nextDay
  split_ifs with ha hb
  · exact ⟨h1, h2, h3, by dsimp only; omega, by dsimp only; omega⟩
  · exact ⟨h1, by dsimp only; omega, by dsimp only; omega, le_refl 1, one_le_daysInMonth _ _⟩
  · exact ⟨by dsimp only; omega, le_refl 1, by dsimp only; omega, le_refl 1,
      one_le_daysInMonth _ _⟩

lemma daysBeforeMonth_succ (y m : ℕ) (hm : 1 ≤ m) :
    daysBeforeMonth y (m + 1) = daysBeforeMonth y m + daysInMonth y m := by
  obtain ⟨s, rfl⟩ := Nat.exists_eq_add_of_le hm
  unfold daysBeforeMonth
  have h1 : 1 + s + 1 - 1 = s + 1 := by omega
  have h2 : 1 + s - 1 = s := by omega
  rw [h1, h2, List.range_succ, List.map_append, List.sum_append, Nat.add_comm 1 s]
  simp

lemma daysBeforeYear_succ (y : ℕ) (hy : 1 ≤ y) :
    daysBeforeYear (y + 1) = daysBeforeYear y + 365 + (if isLeap y then 1 else 0) := by
  obtain ⟨t, rfl⟩ : ∃ t, y = t + 1 := ⟨y - 1, by omega⟩
  unfold daysBeforeYear isLeap
  have h1 : t + 1 + 1 - 1 = t + 1 := by omega
  have h2 : t + 1 - 1 = t := by omega
  rw [h1, h2, Nat.succ_div t 4, Nat.succ_div t 100, Nat.succ_div t 400]
  split_ifs <;> omega

lemma daysBeforeMonth_twelve (y : ℕ) :
    daysBeforeMonth y 12 = 334 + (if isLeap y then 1 else 0) := by
  have hr : List.range 11 = [0, 1, 2, 3, 4, 5, 6, 7, 8, 9, 10] := by decide
  have h12 : (12 : ℕ) - 1 = 11 := by omega
  unfold daysBeforeMonth
  rw [h12, hr]
  split_ifs with h <;> simp [daysInMonth, h]

lemma toOrdinal_nextDay {d : Date} (hd : ValidDate d) :
    toOrdinal (nextDay d) = toOrdinal d + 1 := by
  obtain ⟨h1, h2, h3, h4, h5⟩ := hd
  unfold nextDay
  split_ifs with ha hb
  · simp only [toOrdinal]
    omega
  · have hday : d.day = daysInMonth d.year d.month := by omega
    simp only [toOrdinal]
    rw [daysBeforeMonth_succ d.year d.month h2]
    omega
  · have hm12 : d.month = 12 := by omega
    have hd31 : daysInMonth d.year 12 = 31 := by unfold daysInMonth; norm_num
    have hday : d.day = 31 := by rw [hm12] at h5 ha; omega
    simp only [toOrdinal]
    rw [daysBeforeYear_succ d.year h1, hm12, hday, daysBeforeMonth_twelve d.year]
    have hdbm1 : daysBeforeMonth (d.year + 1) 1 = 0 := by
      unfold daysBeforeMonth
      simp
    rw [hdbm1]
    split_ifs <;> omega

lemma validDate_toOrdinal_addDays (n : ℕ) : ∀ {d : Date}, ValidDate d →
    ValidDate (addDays d n) ∧ toOrdinal (addDays d n) = toOrdinal d + n := by
  induction n with
  | zero => intro d hd; exact ⟨hd, rfl⟩
  | succ n ih =>
    intro d hd
    have hnd := validDate_nextDay hd
    have hrec := ih hnd
    refine ⟨hrec.1, ?_⟩
    have hstep : addDays d (n + 1) = addDays (nextDay d) n := rfl
    rw [hstep, hrec.2, toOrdinal_nextDay hd]
    omega

lemma addDays_injective {start : Date} (hv : ValidDate start) :
    Function.Injective (fun i => addDays start i) := by
  intro i j hij
  have hi := (validDate_toOrdinal_addDays i hv).2
  have hj := (validDate_toOrdinal_addDays j hv).2
  have hord := congrArg toOrdinal hij
  simp only at hord
  omega

/-! ### Forecast-loop lemmas -/

lemma gp_loop_length (model : Model) :
    ∀ (n : ℕ) (data : List ℤ) (date : Date) (ps : List (List ℚ)),
      gp_loop model n data date = some ps → ps.length = n := by
  intro n
  induction n with
  | zero =>
    intro data date ps h
    simp only [gp_loop] at h
    injection h with h
    rw [← h]
    rfl
  | succ n ih =>
    intro data date ps h
    simp only [gp_loop] at h
    split at h
    · exact absurd h (by simp)
    rename_i oh hoh
    split at h
    · exact absurd h (by simp)
    rename_i c hc
    split at h
    · exact absurd h (by simp)
    rename_i rest hrest
    injection h with h
    rw [← h, List.length_cons]
    rw [ih _ _ _ hrest]

lemma windowAt_cons (data : List ℤ) (row : List ℚ) (rest : List (List ℚ)) :
    ∀ i, windowAt data (row :: rest) (i + 1) =
      windowAt (data.tail ++ [truncQ row.headI]) rest i := by
  intro i
  induction i with
  | zero => rfl
  | succ i ih =>
    show (windowAt data (row :: rest) (i + 1)).tail ++ _ = _
    rw [ih, List.getD_cons_succ]
    rfl

lemma gp_loop_sound (model : Model) :
    ∀ (n : ℕ) (data : List ℤ) (date : Date) (ps : List (List ℚ)),
      gp_loop model n data date = some ps →
      ∀ i, i < n → ∃ oh, one_hot_date (addDays date i) = some oh ∧
        ps.getD i [] = model (windowAt data ps i) oh := by
  intro n
  induction n with
  | zero =>
    intro data date ps _ i hi
    exact absurd hi (by omega)
  | succ n ih =>
    intro data date ps h i hi
    simp only [gp_loop] at h
    split at h
    · exact absurd h (by simp)
    rename_i oh hoh
    split at h
    · exact absurd h (by simp)
    rename_i c hc
    split at h
    · exact absurd h (by simp)
    rename_i rest hrest
    injection h with h
    subst h
    cases i with
    | zero => exact ⟨oh, hoh, rfl⟩
    | succ j =>
      have hj : j < n := by omega
      obtain ⟨oh2, hoh2, heq⟩ := ih (data.tail ++ [truncQ c]) (nextDay date) rest hrest j hj
      refine ⟨oh2, hoh2, ?_⟩
      have hhead : (model data oh).headI = c := by
        cases hrow : model data oh with
        | nil => rw [hrow] at hc; exact absurd hc (by simp)
        | cons a t =>
          rw [hrow] at hc
          injection hc with hc
      rw [List.getD_cons_succ, windowAt_cons, hhead]
      exact heq

lemma windowAt_length (data : List ℤ) (ps : List (List ℚ)) (hdata : 1 ≤ data.length) :
    ∀ i, (windowAt data ps i).length = data.length := by
  intro i
  induction i with
  | zero => rfl
  | succ i ih =>
    show ((windowAt data ps i).tail ++ _).length = _
    rw [List.length_append, List.length_tail, ih]
    simp only [List.length_cons, List.length_nil]
    omega

lemma gp_loop_total (model : Model) (hm : ∀ w oh, model w oh ≠ []) :
    ∀ (n : ℕ) (date : Date) (data : List ℤ),
      ValidDate date → (∀ i, i < n → (addDays date i).day ≠ 31) →
      ∃ ps, gp_loop model n data date = some ps := by
  intro n
  induction n with
  | zero =>
    intro date data _ _
    exact ⟨[], rfl⟩
  | succ n ih =>
    intro date data hv hday
    have h31 : date.day ≠ 31 := hday 0 (by omega)
    have hmonth : date.month < 12 + 31 := by
      have := hv.2.2.1
      omega
    have hday43 : 12 + date.day < 12 + 31 := by
      have h1 := hv.2.2.2.2
      have h2 := daysInMonth_le_31 date.year date.month
      omega
    have hone : one_hot_date date =
        some (((List.replicate (12 + 31) (0 : ℚ)).set date.month 1).set (12 + date.day) 1) := by
      simp [one_hot_date, np_set, hmonth, hday43]
    cases hrow : model data (((List.replicate (12 + 31) (0 : ℚ)).set date.month 1).set
        (12 + date.day) 1) with
    | nil => exact absurd hrow (hm _ _)
    | cons a t =>
      obtain ⟨rest, hrest⟩ := ih (nextDay date) (data.tail ++ [truncQ a])
        (validDate_nextDay hv) (fun i hi => hday (i + 1) (by omega))
      refine ⟨(a :: t) :: rest, ?_⟩
      simp only [gp_loop, hone, hrow, List.head?, hrest]

/-! ### Counting lemmas for the daily series builder -/

lemma sum_beq_indicator (ds : List Date) (e : Date) :
    (ds.map (fun d => if e == d then 1 else 0)).sum = ds.count e := by
  induction ds with
  | nil => rfl
  | cons d ds ih =>
    simp only [List.map_cons, List.sum_cons, List.count_cons, ih]
    have hbe : (e == d) = (d == e) := by
      by_cases hx : e = d
      · rw [hx]
      · have hx2 : ¬d = e := fun hh => hx hh.symm
        simp [hx, hx2]
    rw [hbe, Nat.add_comm]

lemma count_eq_ite_mem {ds : List Date} (hnd : ds.Nodup) (e : Date) :
    ds.count e = if e ∈ ds then 1 else 0 := by
  split_ifs with h
  · have h1 := List.nodup_iff_count_le_one.mp hnd e
    have h2 : 0 < ds.count e := List.count_pos_iff.mpr h
    omega
  · exact List.count_eq_zero.mpr h

lemma sum_counts_eq_countP (events : List Date) :
    ∀ ds : List Date, ds.Nodup →
      (ds.map (fun d => events.count d)).sum =
        events.countP (fun e => decide (e ∈ ds)) := by
  induction events with
  | nil =>
    intro ds _
    simp [List.count_nil, List.map_const']
  | cons e es ih =>
    intro ds hnd
    simp only [List.count_cons]
    rw [List.sum_map_add, ih ds hnd, sum_beq_indicator ds e, List.countP_cons,
      count_eq_ite_mem hnd e]
    by_cases hm : e ∈ ds <;> simp [hm]

/-! ### Orchestrator lemmas -/

lemma get_model_ok_rows {env : Env} {clinic_id : ℕ} {tc : TriageClass} {m : Model}
    (h : get_model env clinic_id tc = Except.ok m) :
    env.modelRows clinic_id tc.severity ≠ [] := by
  intro hnil
  simp only [get_model, hnil] at h
  exact absurd h (by simp)

lemma run_triage_classes_ok (env : Env) (clinic_id : ℕ) (intervals : List (Date × Date))
    (confidence : ℚ) (num_sim_runs : ℕ) (histInterval : Date × Date) (histLen : ℕ)
    (predStart : Date) (predLen : ℕ) :
    ∀ (l : List TriageClass) (resp r : List (String × List SimFormatted)),
      run_triage_classes env clinic_id intervals confidence num_sim_runs histInterval
        histLen predStart predLen l resp = Except.ok r →
      ∀ tc ∈ l, env.modelRows clinic_id tc.severity ≠ [] := by
  intro l
  induction l with
  | nil =>
    intro resp r _ tc htc
    exact absurd htc (by simp)
  | cons tc0 rest ih =>
    intro resp r h tc htc
    simp only [run_triage_classes] at h
    split at h
    · exact absurd h (by simp)
    rename_i model hgm
    split at h
    · exact absurd h (by simp)
    rename_i preds hpreds
    rcases List.mem_cons.mp htc with hceq | hmem
    · subst hceq
      exact get_model_ok_rows hgm
    · exact ih _ r h tc hmem

/-! ### Sample data used by witnesses and counterexamples -/

/-- A sample triage class with severity 1. -/
def tcA : TriageClass := ⟨"A", 1, 2, 1 / 2⟩

/-- A sample triage class with severity 2. -/
def tcB : TriageClass := ⟨"B", 2, 1, 1 / 4⟩

/-- An environment whose model-registry query returns two matching rows. -/
def envTwo : Env where
  clinicSettings := fun _ => [tcA]
  referralRows := fun _ _ => []
  modelRows := fun _ _ => ["a", "b"]
  loadModel := fun _ => fun _ _ => [0]
  yearRows := fun _ _ => [2019]
  sim := fun _ => []

/-- An environment with two triage classes where severity 1 has an active
model registered and severity 2 has none. -/
def envOneMissing : Env where
  clinicSettings := fun _ => [tcA, tcB]
  referralRows := fun _ _ => []
  modelRows := fun _ s => if s = 1 then ["m"] else []
  loadModel := fun _ => fun _ _ => [1]
  yearRows := fun _ _ => [2019]
  sim := fun _ => []

/-! ### Claims -/

/-- C1: the claim states that the calendar feature is a 43-wide vector with
exactly the month flag inside the first 12 slots and the day flag inside
the last 31 slots.  The code instead writes indices `date.month` and
`12 + date.day`: for any day-31 date the second write hits index 43 of a
43-vector and raises `IndexError` (first conjunct), and for any December
date the month flag lands at index 12, the first slot of the day block, so
the first 12 slots are all zero (second and third conjuncts). -/
theorem C1_one_hot_code_bug :
    one_hot_date ⟨2022, 12, 31⟩ = none ∧
    ((one_hot_date ⟨2022, 12, 15⟩).getD []).take 12 = List.replicate 12 0 ∧
    ((one_hot_date ⟨2022, 12, 15⟩).getD []).getD 12 0 = 1 := by
  decide

/-- C2 counterexample: with two active registered models for
(clinic 1, severity of `tcA`), `get_model` does not fail — it silently
loads the first row — contradicting the claim that anything other than
exactly one match is an error. -/
theorem C2_counterexample :
    (envTwo.modelRows 1 tcA.severity).length = 2 ∧
    get_model envTwo 1 tcA = Except.ok (envTwo.loadModel "a") :=
  ⟨rfl, rfl⟩

/-- C2 (amended): the model lookup fails (with MissingModel) if and only
if there are zero matching rows; when one or more rows match, the model at
the first row's path is loaded, so multiple matches are not an error. -/
theorem C2_model_lookup (env : Env) (clinic_id : ℕ) (tc : TriageClass) :
    ((∃ e, get_model env clinic_id tc = Except.error e) ↔
      env.modelRows clinic_id tc.severity = []) ∧
    (env.modelRows clinic_id tc.severity ≠ [] →
      get_model env clinic_id tc =
        Except.ok (env.loadModel (env.modelRows clinic_id tc.severity).headI)) := by
  simp only [get_model]
  by_cases h : (env.modelRows clinic_id tc.severity).length = 0
  · have hnil : env.modelRows clinic_id tc.severity = [] := List.length_eq_zero.mp h
    rw [if_pos h]
    refine ⟨⟨fun _ => hnil, fun _ => ⟨_, rfl⟩⟩, fun hne => absurd hnil hne⟩
  · have hne : env.modelRows clinic_id tc.severity ≠ [] := by
      intro hnil
      rw [hnil] at h
      exact h rfl
    rw [if_neg h]
    refine ⟨⟨?_, fun hnil => absurd hnil hne⟩, fun _ => rfl⟩
    rintro ⟨e, he⟩
    exact absurd he (by simp)

/-- C2 witness for the amended claim, at an environment with two rows. -/
theorem C2_model_lookup_witness :
    get_model envTwo 1 tcB =
      Except.ok (envTwo.loadModel (envTwo.modelRows 1 tcB.severity).headI) :=
  (C2_model_lookup envTwo 1 tcB).2 (by decide)

/-- C3 counterexample: a model whose output row is `[5, 7]` produces a
forecast entry `[5, 7]` in the assembled series (at position
`SIM_PADDING_LENGTH`, right after the padding), whose secondary component
is 7, not 0: the code appends `prediction[0]` unmodified and never forces
the secondary channel to 0. -/
theorem C3_counterexample :
    get_predictions (fun _ _ => [5, 7]) (List.replicate 30 0) ⟨2022, 1, 1⟩ 1 =
      some [[5, 7]] ∧
    ((make_data_frame [] [1, 1, 1, 1, 1, 1, 1] [[5, 7]]).data.getD
      SIM_PADDING_LENGTH []).getD 1 0 = 7 ∧
    (7 : ℚ) ≠ 0 := by
  decide

/-- C3 (amended): the H forecast entries appended after the padding are
the model's raw output rows, passed through unmodified (followed by the
sentinel); their secondary component is whatever the model emitted, and is
0 only when the model outputs 0 there. -/
theorem C3_forecast_rows_pass_through (intervals : List (Date × Date)) (sorted : List ℕ)
    (preds : List (List ℚ)) (h : SIM_PADDING_LENGTH ≤ sorted.length) :
    (make_data_frame intervals sorted preds).data.drop SIM_PADDING_LENGTH =
      preds ++ [[0, 0]] := by
  simp only [make_data_frame]
  have hlen : ((sorted.drop (sorted.length - SIM_PADDING_LENGTH)).map
      (fun (arrivals : ℕ) => [(arrivals : ℚ), 0])).length = SIM_PADDING_LENGTH := by
    rw [List.length_map, List.length_drop]
    have : SIM_PADDING_LENGTH = 7 := rfl
    omega
  rw [List.append_assoc, List.drop_left' hlen]

/-- C3 witness for the amended claim. -/
theorem C3_forecast_rows_pass_through_witness :
    (make_data_frame [] [1, 2, 3, 4, 5, 6, 7] [[5, 7]]).data.drop SIM_PADDING_LENGTH =
      [[5, 7]] ++ [[0, 0]] :=
  C3_forecast_rows_pass_through [] [1, 2, 3, 4, 5, 6, 7] [[5, 7]] (by decide)

/-- C4 counterexample: `get_predictions` run with an empty seed window
(shorter than any required context length, e.g. K = 1) does not fail:
it silently proceeds and produces its predictions.  No insufficient-history
check exists in the code. -/
theorem C4_counterexample :
    get_predictions (fun _ _ => [1]) [] ⟨2022, 1, 1⟩ 2 = some [[1], [1]] ∧
    ([] : List ℤ).length < 1 := by
  decide

/-- C4 (amended): the forecast driver performs no context-length check:
for every required context length K and every seed window strictly shorter
than K it proceeds without any error and still returns H predictions
(provided the run does not hit the unrelated day-31 calendar-feature crash
and the model returns non-empty rows).  In `predict` the seed is the tail
of `sort_referral_data`'s output, which is zero-filled to the full window
length, so a short tail never even occurs. -/
theorem C4_no_insufficient_history_check (K : ℕ) (model : Model) (data : List ℤ)
    (start : Date) (H : ℕ) (hshort : data.length < K) (hv : ValidDate start)
    (hday : ∀ i, i < H → (addDays start i).day ≠ 31)
    (hm : ∀ w oh, model w oh ≠ []) :
    ∃ ps, get_predictions model data start H = some ps ∧ ps.length = H := by
  obtain ⟨ps, hps⟩ := gp_loop_total model hm H start data hv hday
  exact ⟨ps, hps, gp_loop_length model H data start ps hps⟩

/-- C4 witness for the amended claim: an empty window, K = 5, H = 1. -/
theorem C4_no_insufficient_history_check_witness :
    ∃ ps, get_predictions (fun _ _ => [1]) [] ⟨2022, 1, 1⟩ 1 = some ps ∧ ps.length = 1 :=
  C4_no_insufficient_history_check 5 (fun _ _ => [1]) [] ⟨2022, 1, 1⟩ 1 (by decide)
    (by decide) (fun i hi => by interval_cases i; decide) (fun w oh => by simp)

/-- C5: for every historical series of length at least
`SIM_PADDING_LENGTH` = P and every forecast output, the assembled series
has length exactly P + H + 1, ends with the sentinel `[0, 0]`, starts with
the most recent P historical counts in chronological order each paired
with flag 0, and the boundary tag is `(P, 0)`. -/
theorem C5_assembled_series_shape (intervals : List (Date × Date)) (sorted : List ℕ)
    (preds : List (List ℚ)) (h : SIM_PADDING_LENGTH ≤ sorted.length) :
    (make_data_frame intervals sorted preds).data.length =
      SIM_PADDING_LENGTH + preds.length + 1 ∧
    (make_data_frame intervals sorted preds).data.getLast? = some [0, 0] ∧
    (make_data_frame intervals sorted preds).data.take SIM_PADDING_LENGTH =
      (sorted.drop (sorted.length - SIM_PADDING_LENGTH)).map
        (fun (arrivals : ℕ) => [(arrivals : ℚ), 0]) ∧
    (make_data_frame intervals sorted preds).boundary = (SIM_PADDING_LENGTH, 0) := by
  have hlen : ((sorted.drop (sorted.length - SIM_PADDING_LENGTH)).map
      (fun (arrivals : ℕ) => [(arrivals : ℚ), 0])).length = SIM_PADDING_LENGTH := by
    rw [List.length_map, List.length_drop]
    have : SIM_PADDING_LENGTH = 7 := rfl
    omega
  refine ⟨?_, ?_, ?_, rfl⟩
  · simp only [make_data_frame, List.length_append, hlen, List.length_cons,
      List.length_nil]
    try omega
  · simp [make_data_frame, List.getLast?_append]
  · simp only [make_data_frame]
    rw [List.append_assoc, List.take_left' hlen]

/-- C5 witness at a concrete 7-day history and one forecast row. -/
theorem C5_assembled_series_shape_witness :
    (make_data_frame [] [1, 2, 3, 4, 5, 6, 7] [[9, 9]]).data.getLast? = some [0, 0] :=
  (C5_assembled_series_shape [] [1, 2, 3, 4, 5, 6, 7] [[9, 9]] (by decide)).2.1

/-- C6: whenever `get_predictions` succeeds with output `ps`, the window
used at step i+1 is the window used at step i with its oldest entry
dropped and step i's prediction, truncated to an integer, appended (first
conjunct, the recurrence defining `windowAt`); the prediction recorded at
every step i is the model applied to exactly that window and that day's
calendar feature (second conjunct); and for a non-empty seed window the
window length is invariant across all steps (third conjunct). -/
theorem C6_window_slide (model : Model) (data : List ℤ) (start : Date) (H : ℕ)
    (ps : List (List ℚ)) (h : get_predictions model data start H = some ps) :
    (∀ i, i + 1 < H → windowAt data ps (i + 1) =
      (windowAt data ps i).tail ++ [truncQ ((ps.getD i []).headI)]) ∧
    (∀ i, i < H → ∃ oh, one_hot_date (addDays start i) = some oh ∧
      ps.getD i [] = model (windowAt data ps i) oh) ∧
    (1 ≤ data.length → ∀ i, i ≤ H → (windowAt data ps i).length = data.length) := by
  exact ⟨fun i _ => rfl, gp_loop_sound model H data start ps h,
    fun hd i _ => windowAt_length data ps hd i⟩

/-- C6 witness: a concrete two-step run with seed window `[5, 6]`. -/
theorem C6_window_slide_witness :
    (windowAt [5, 6] [[2], [2]] 2).length = 2 :=
  (C6_window_slide (fun _ _ => [2]) [5, 6] ⟨2022, 1, 1⟩ 2 [[2], [2]] (by decide)).2.2
    (by decide) 2 (by decide)

/-- C7: for every event list (duplicates allowed), valid anchor date and
window length L ≥ 1, the daily series has length exactly L; position i is
the count of events on day start+i; the sum of the series is the number of
events falling on one of the L window days; and an empty event list gives
the all-zero series. -/
theorem C7_daily_series (events : List Date) (start : Date) (L : ℕ)
    (hL : 1 ≤ L) (hv : ValidDate start) :
    (sort_referral_data events start L).length = L ∧
    (∀ i, i < L → (sort_referral_data events start L).getD i 0 =
      events.count (addDays start i)) ∧
    (sort_referral_data events start L).sum =
      events.countP (fun e => decide (e ∈ (List.range L).map (fun i => addDays start i))) ∧
    sort_referral_data [] start L = List.replicate L 0 := by
  refine ⟨?_, ?_, ?_, ?_⟩
  · simp [sort_referral_data]
  · intro i hi
    simp only [sort_referral_data]
    rw [List.getD_eq_getElem?_getD, List.getElem?_map, List.getElem?_map,
      List.getElem?_range hi]
    rfl
  · have hnd : ((List.range L).map (fun i => addDays start i)).Nodup :=
      (List.nodup_range L).map (addDays_injective hv)
    exact sum_counts_eq_countP events _ hnd
  · simp [sort_referral_data, List.count_nil, Function.comp_def, List.map_const']

/-- C7 witness: three events, two of them inside a 3-day window. -/
theorem C7_daily_series_witness :
    (sort_referral_data [⟨2022, 1, 2⟩, ⟨2022, 1, 2⟩, ⟨2022, 1, 9⟩] ⟨2022, 1, 1⟩ 3).sum =
      [⟨2022, 1, 2⟩, ⟨2022, 1, 2⟩, (⟨2022, 1, 9⟩ : Date)].countP
        (fun e => decide (e ∈ (List.range 3).map (fun i => addDays ⟨2022, 1, 1⟩ i))) :=
  (C7_daily_series [⟨2022, 1, 2⟩, ⟨2022, 1, 2⟩, ⟨2022, 1, 9⟩] ⟨2022, 1, 1⟩ 3
    (by decide) (by decide)).2.2.1

/-- C8: the claim states the driver returns exactly H predictions for
every horizon, seed window and scoring function.  The code instead raises
`IndexError` (returns nothing) whenever a forecast day is the 31st of a
month, because the calendar-feature write `one_hot_date[12 + date.day] = 1`
hits index 43 of the 43-vector: with start 2022-01-31 and H = 1 it returns
no predictions at all, while the same call one day earlier succeeds. -/
theorem C8_day31_crash :
    get_predictions (fun _ _ => [1]) (List.replicate 30 0) ⟨2022, 1, 31⟩ 1 = none ∧
    get_predictions (fun _ _ => [1]) (List.replicate 30 0) ⟨2022, 1, 30⟩ 1 =
      some [[1]] := by
  decide

/-- C9: if any triage class of the clinic has no active registered model,
`predict` cannot return a result: the run aborts with the error and no
partial per-class output is returned (the `Except` result carries either
a full response or an error, never both). -/
theorem C9_abort_on_missing_model (env : Env) (clinic_id : ℕ)
    (intervals : List (Date × Date)) (confidence : ℚ) (num_sim_runs : ℕ)
    (h : ∃ tc ∈ env.clinicSettings clinic_id, env.modelRows clinic_id tc.severity = []) :
    ∀ r, predict env clinic_id intervals confidence num_sim_runs ≠ Except.ok r := by
  intro r hok
  obtain ⟨tc, htc, hrows⟩ := h
  simp only [predict] at hok
  split at hok
  · split at hok
    · exact absurd hok (by simp)
    split at hok
    · exact absurd hok (by simp)
    exact run_triage_classes_ok env clinic_id intervals confidence num_sim_runs _ _ _ _
      _ _ r hok tc htc hrows
  · exact absurd hok (by simp)

/-- C9 witness: a clinic whose first class has a model and whose second
class has none; the run yields no response (and indeed evaluates to the
MissingModel error, with the first class's finished work discarded). -/
theorem C9_abort_on_missing_model_witness :
    predict envOneMissing 1 [(⟨2020, 1, 1⟩, ⟨2020, 1, 1⟩)] 1 1 ≠ Except.ok [] ∧
    predict envOneMissing 1 [(⟨2020, 1, 1⟩, ⟨2020, 1, 1⟩)] 1 1 =
      Except.error (Err.missingModel 1 "B") :=
  ⟨C9_abort_on_missing_model envOneMissing 1 [(⟨2020, 1, 1⟩, ⟨2020, 1, 1⟩)] 1 1
    ⟨tcB, List.mem_cons_of_mem _ (List.mem_cons_self _ _), rfl⟩ [], rfl⟩

/-- C10: constructed with an empty intervals list, `predict` fails
immediately with the indexing error raised while reading
`intervals[0][0]`, for every environment — in particular before any
database query, model load or simulation call, since the result does not
depend on `env` at all — and returns no response. -/
theorem C10_empty_intervals (env : Env) (clinic_id : ℕ) (confidence : ℚ)
    (num_sim_runs : ℕ) :
    predict env clinic_id [] confidence num_sim_runs =
      Except.error Err.indexOutOfRange :=
  rfl

end TriageModel
